import Mathlib

/-!
Verification of the VPA signal pipeline (price-volume-lab).

Shallow embedding of the core pipeline stages from `src/vpa_core`:
classification (`relative_volume.py`, `features.py`), the context engine
(`context_engine.py`), the daily-context resolver (`daily_context.py`),
trend-level rules (`rule_engine.py`), context gates (`context_gates.py`),
the setup composer (`setup_composer.py`) and the risk engine
(`risk_engine.py`). Prices, volumes and thresholds are modelled as
rationals; Python `int` fields are modelled as `Int`; timestamps as `Nat`.
-/

namespace VPA

/-- Canonical 4-state volume classification (contracts.py `VolumeState`). -/
inductive VolumeState where
  | LOW
  | AVERAGE
  | HIGH
  | ULTRA_HIGH
deriving DecidableEq, Repr

/-- Canonical 3-state spread classification (contracts.py `SpreadState`). -/
inductive SpreadState where
  | NARROW
  | NORMAL
  | WIDE
deriving DecidableEq, Repr

/-- Trend direction from the context engine (contracts.py `Trend`). -/
inductive Trend where
  | UP
  | DOWN
  | RANGE
  | UNKNOWN
deriving DecidableEq, Repr

/-- Strength of the detected trend (contracts.py `TrendStrength`). -/
inductive TrendStrength where
  | WEAK
  | MODERATE
  | STRONG
deriving DecidableEq, Repr

/-- Where price is relative to recent structure (contracts.py `TrendLocation`). -/
inductive TrendLocation where
  | TOP
  | BOTTOM
  | MIDDLE
  | UNKNOWN
deriving DecidableEq, Repr

/-- Volume trend direction over a lookback window (contracts.py `VolumeTrend`). -/
inductive VolumeTrend where
  | RISING
  | FALLING
  | FLAT
  | UNKNOWN
deriving DecidableEq, Repr

/-- Alignment of trade direction with the dominant timeframe trend
(contracts.py `DominantAlignment`). -/
inductive DominantAlignment where
  | WITH
  | AGAINST
  | UNKNOWN
deriving DecidableEq, Repr

/-- Classification of a signal event (contracts.py `SignalClass`). -/
inductive SignalClass where
  | VALIDATION
  | ANOMALY
  | STRENGTH
  | WEAKNESS
  | AVOIDANCE
  | CONFIRMATION
  | TEST
deriving DecidableEq, Repr

/-- Status of a trade intent (contracts.py `TradeIntentStatus`). -/
inductive TradeIntentStatus where
  | READY
  | PENDING_CONFIRM
  | REJECTED
deriving DecidableEq, Repr

/-- Setup candidate lifecycle state (setup_composer.py `SetupState`). -/
inductive SetupState where
  | INACTIVE
  | CANDIDATE
  | READY
  | INVALIDATED
  | EXPIRED
deriving DecidableEq, Repr

/-- OHLCV bar (contracts.py `Bar`). The Python `timestamp: datetime` is
modelled as a `Nat` instant; `symbol` is carried as a string. -/
structure Bar where
  open_ : ℚ
  high : ℚ
  low : ℚ
  close : ℚ
  volume : ℚ
  timestamp : Nat
  symbol : String
deriving DecidableEq, Repr

/-- Congestion zone inside a `ContextSnapshot` (contracts.py `Congestion`). -/
structure Congestion where
  active : Bool
  rangeHigh : Option ℚ := none
  rangeLow : Option ℚ := none
deriving DecidableEq, Repr

/-- Context for a timeframe at a point in time (contracts.py `ContextSnapshot`).
The Python dataclass defaults `dominant_alignment` to UNKNOWN and
`volume_trend` to UNKNOWN. -/
structure ContextSnapshot where
  tf : String
  trend : Trend
  trendStrength : TrendStrength
  trendLocation : TrendLocation
  congestion : Congestion
  dominantAlignment : DominantAlignment := DominantAlignment.UNKNOWN
  volumeTrend : VolumeTrend := VolumeTrend.UNKNOWN
deriving DecidableEq, Repr

/-- A scalar evidence value: the Python evidence dict holds floats and
enum `.value` strings. -/
inductive EvidenceVal where
  | num (q : ℚ)
  | str (s : String)
deriving DecidableEq, Repr

/-- Evidence payload: insertion-ordered string-keyed map, modelled as an
association list (contracts.py `SignalEvent.evidence`). -/
abbrev Evidence := List (String × EvidenceVal)

/-- Atomic signal emitted by the rule engine (contracts.py `SignalEvent`).
The Python `ts: datetime` is modelled as a `Nat` instant. -/
structure SignalEvent where
  id : String
  name : String
  tf : String
  ts : Nat
  signalClass : SignalClass
  directionBias : String
  priority : Int := 1
  evidence : Evidence := []
  requiresContextGate : Bool := false
deriving DecidableEq, Repr

/-- Entry timing and order type within a TradeIntent (contracts.py `EntryPlan`). -/
structure EntryPlan where
  timing : String := "NEXT_BAR_OPEN"
  orderType : String := "MARKET"
deriving DecidableEq, Repr

/-- Stop, size, and risk parameters within a TradeIntent (contracts.py `RiskPlan`). -/
structure RiskPlan where
  stop : ℚ
  riskPct : ℚ
  size : Int
deriving DecidableEq, Repr

/-- Output of the risk engine (contracts.py `TradeIntent`). -/
structure TradeIntent where
  intentId : String
  direction : String
  tf : String
  setup : String
  status : TradeIntentStatus
  entryPlan : EntryPlan
  riskPlan : RiskPlan
  rationale : List String := []
  rejectReason : Option String := none
deriving DecidableEq, Repr

/-- Current account snapshot for risk calculations (risk_engine.py `AccountState`). -/
structure AccountState where
  equity : ℚ
  openPositionCount : Int := 0
  dailyRealizedPnl : ℚ := 0
deriving DecidableEq, Repr

/-- Volume classification thresholds (vpa_config.py `VolThresholds`). -/
structure VolThresholds where
  lowLt : ℚ
  highGt : ℚ
  ultraHighGt : ℚ
deriving DecidableEq, Repr

/-- Volume section of the config (vpa_config.py `VolConfig`). -/
structure VolConfig where
  avgWindowN : Int
  thresholds : VolThresholds
deriving DecidableEq, Repr

/-- Spread classification thresholds (vpa_config.py `SpreadThresholds`). -/
structure SpreadThresholds where
  narrowLt : ℚ
  wideGt : ℚ
deriving DecidableEq, Repr

/-- Spread section of the config (vpa_config.py `SpreadConfig`). -/
structure SpreadConfig where
  avgWindowM : Int
  thresholds : SpreadThresholds
deriving DecidableEq, Repr

/-- Trend section of the config (vpa_config.py `TrendConfig`). -/
structure TrendConfig where
  windowK : Int
  locationLookback : Int := 20
  congestionWindow : Int := 10
  congestionPct : ℚ := 3/10
deriving DecidableEq, Repr

/-- Setup section of the config (vpa_config.py `SetupConfig`). -/
structure SetupConfig where
  windowX : Int
deriving DecidableEq, Repr

/-- Gate toggles (vpa_config.py `GatesConfig`). -/
structure GatesConfig where
  ctx1TrendLocationRequired : Bool
  ctx2DominantAlignmentPolicy : String
  ctx3CongestionAwarenessRequired : Bool
deriving DecidableEq, Repr

/-- Execution semantics (vpa_config.py `VPAExecutionConfig`). -/
structure VPAExecutionConfig where
  signalEval : String
  entryTiming : String
  intrabarAllowed : Bool
deriving DecidableEq, Repr

/-- Fee model config (vpa_config.py `CostsConfig`). -/
structure CostsConfig where
  feeModel : String
  feeValue : ℚ
deriving DecidableEq, Repr

/-- Slippage model config (vpa_config.py `SlippageConfig`). -/
structure SlippageConfig where
  model : String
  value : ℚ
deriving DecidableEq, Repr

/-- Hammer pattern thresholds (vpa_config.py `HammerConfig`). -/
structure HammerConfig where
  lowerWickRatioMin : ℚ
  bodyRatioMax : ℚ
  upperWickRatioMax : ℚ
deriving DecidableEq, Repr

/-- Shooting-star pattern thresholds (vpa_config.py `ShootingStarConfig`). -/
structure ShootingStarConfig where
  upperWickRatioMin : ℚ
  bodyRatioMax : ℚ
  lowerWickRatioMax : ℚ
deriving DecidableEq, Repr

/-- Long-legged-doji pattern thresholds (vpa_config.py `LongLeggedDojiConfig`). -/
structure LongLeggedDojiConfig where
  bodyRatioMax : ℚ
  minWickRatio : ℚ
deriving DecidableEq, Repr

/-- Candle pattern thresholds (vpa_config.py `CandlePatternsConfig`). -/
structure CandlePatternsConfig where
  hammer : HammerConfig
  shootingStar : ShootingStarConfig
  longLeggedDoji : LongLeggedDojiConfig
deriving DecidableEq, Repr

/-- Risk section of the config (vpa_config.py `RiskConfig`). -/
structure RiskConfig where
  riskPctPerTrade : ℚ
  maxConcurrentPositions : Int
  countertrendMultiplier : ℚ
  dailyLossLimitPct : Option ℚ := none
deriving DecidableEq, Repr

/-- Volume guard config (vpa_config.py `VolumeGuardConfig`). -/
structure VolumeGuardConfig where
  enabled : Bool := true
  minAvgVolume : Int := 10000
deriving DecidableEq, Repr

/-- ATR config (vpa_config.py `AtrConfig`). -/
structure AtrConfig where
  period : Int := 14
  stopMultiplier : ℚ := 3/2
  enabled : Bool := false
deriving DecidableEq, Repr

/-- Top-level VPA configuration (vpa_config.py `VPAConfig`). -/
structure VPAConfig where
  version : String
  vol : VolConfig
  spread : SpreadConfig
  trend : TrendConfig
  setup : SetupConfig
  gates : GatesConfig
  execution : VPAExecutionConfig
  costs : CostsConfig
  slippage : SlippageConfig
  candlePatterns : CandlePatternsConfig
  risk : RiskConfig
  volumeGuard : VolumeGuardConfig := {}
  atr : AtrConfig := {}
deriving DecidableEq, Repr

/-- relative_volume.py `classify_volume`: classify VolRel into the canonical
4-state VolumeState using config thresholds. -/
def classify_volume (volRelValue : ℚ) (config : VPAConfig) : VolumeState :=
  let t := config.vol.thresholds
  if volRelValue > t.ultraHighGt then VolumeState.ULTRA_HIGH
  else if volRelValue > t.highGt then VolumeState.HIGH
  else if volRelValue < t.lowLt then VolumeState.LOW
  else VolumeState.AVERAGE

/-- features.py `classify_spread`: classify SpreadRel into the canonical
3-state SpreadState using config thresholds. -/
def classify_spread (spreadRelValue : ℚ) (config : VPAConfig) : SpreadState :=
  let t := config.spread.thresholds
  if spreadRelValue > t.wideGt then SpreadState.WIDE
  else if spreadRelValue < t.narrowLt then SpreadState.NARROW
  else SpreadState.NORMAL

/-- Last `n` elements of a list (Python `l[-n:]` for `n > 0`). -/
def takeLast (n : Nat) (l : List Bar) : List Bar :=
  l.drop (l.length - n)

/-- Python tail slice `l[-k:]` for an arbitrary integer `k`:
positive `k` keeps the last `k` elements, `k = 0` keeps the whole list,
negative `k` drops the first `-k` elements. -/
def pySliceFrom (k : Int) (l : List Bar) : List Bar :=
  if 0 < k then takeLast k.toNat l else l.drop (-k).toNat

/-- Python `max(b.high for b in window)` over a nonempty window
(the empty case, unreachable at call sites, yields 0). -/
def maxHigh : List Bar → ℚ
  | [] => 0
  | b :: rest => rest.foldl (fun m x => max m x.high) b.high

/-- Python `min(b.low for b in window)` over a nonempty window
(the empty case, unreachable at call sites, yields 0). -/
def minLow : List Bar → ℚ
  | [] => 0
  | b :: rest => rest.foldl (fun m x => min m x.low) b.low

/-- Python `bars[-1].close` (the empty case, unreachable at call sites,
yields 0). -/
def lastClose (bars : List Bar) : ℚ :=
  match bars.getLast? with
  | some b => b.close
  | none => 0

/-- context_engine.py `_unknown_context`. -/
def unknownContext (tf : String) : ContextSnapshot :=
  { tf := tf
    trend := Trend.UNKNOWN
    trendStrength := TrendStrength.WEAK
    trendLocation := TrendLocation.UNKNOWN
    congestion := { active := false }
    dominantAlignment := DominantAlignment.UNKNOWN }

/-- Count of strictly rising close-to-close transitions in `recent`
(context_engine.py `_detect_trend` loop, `ups`). -/
def countUps (recent : List Bar) : Nat :=
  (recent.zip recent.tail).countP (fun p => decide (p.2.close > p.1.close))

/-- Count of strictly falling close-to-close transitions in `recent`
(context_engine.py `_detect_trend` loop, `downs`). -/
def countDowns (recent : List Bar) : Nat :=
  (recent.zip recent.tail).countP (fun p => decide (p.2.close < p.1.close))

/-- context_engine.py `_detect_trend`: trend direction and strength from
recent closes. -/
def detectTrend (bars : List Bar) (windowK : Int) : Trend × TrendStrength :=
  let lookback : Int := min windowK ((bars.length : Int) - 1)
  if lookback < 1 then (Trend.UNKNOWN, TrendStrength.WEAK)
  else
    let recent := takeLast (lookback + 1).toNat bars
    let ups := countUps recent
    let downs := countDowns recent
    if ups + downs = 0 then (Trend.RANGE, TrendStrength.WEAK)
    else
      let dominant : ℚ := (max ups downs : Nat)
      let consistency : ℚ := dominant / (lookback : ℚ)
      if ups > downs then
        (Trend.UP,
          if consistency ≥ 4/5 then TrendStrength.STRONG
          else if consistency ≥ 3/5 then TrendStrength.MODERATE
          else TrendStrength.WEAK)
      else if downs > ups then
        (Trend.DOWN,
          if consistency ≥ 4/5 then TrendStrength.STRONG
          else if consistency ≥ 3/5 then TrendStrength.MODERATE
          else TrendStrength.WEAK)
      else (Trend.RANGE, TrendStrength.WEAK)

/-- The trailing window used by `_detect_location`:
`bars[-location_lookback:] if len(bars) >= location_lookback else bars`. -/
def locationWindow (bars : List Bar) (locationLookback : Int) : List Bar :=
  if (bars.length : Int) ≥ locationLookback then pySliceFrom locationLookback bars
  else bars

/-- context_engine.py `_detect_location`: where the current close sits
within the lookback price range. -/
def detectLocation (bars : List Bar) (locationLookback : Int) : TrendLocation :=
  let window := locationWindow bars locationLookback
  if window.length < 2 then TrendLocation.UNKNOWN
  else
    let highest := maxHigh window
    let lowest := minLow window
    let fullRange := highest - lowest
    if fullRange ≤ 0 then TrendLocation.MIDDLE
    else
      let currentClose := lastClose bars
      let pct := (currentClose - lowest) / fullRange
      if pct ≥ 3/4 then TrendLocation.TOP
      else if pct ≤ 1/4 then TrendLocation.BOTTOM
      else TrendLocation.MIDDLE

/-- context_engine.py `_detect_congestion`: compare recent range to the
wider lookback range. -/
def detectCongestion (bars : List Bar) (congestionWindow : Int)
    (locationLookback : Int) (congestionPct : ℚ) : Congestion :=
  if (bars.length : Int) < max congestionWindow 2 then { active := false }
  else
    let recent := pySliceFrom congestionWindow bars
    let recentHigh := maxHigh recent
    let recentLow := minLow recent
    let recentRange := recentHigh - recentLow
    let wider :=
      if (bars.length : Int) ≥ locationLookback then pySliceFrom locationLookback bars
      else bars
    let widerHigh := maxHigh wider
    let widerLow := minLow wider
    let widerRange := widerHigh - widerLow
    if widerRange ≤ 0 then { active := false }
    else if recentRange / widerRange < congestionPct then
      { active := true, rangeHigh := some recentHigh, rangeLow := some recentLow }
    else
      { active := false, rangeHigh := some recentHigh, rangeLow := some recentLow }

/-- context_engine.py `analyze`: bar history to `ContextSnapshot`.
Mirrors the source exactly: the returned snapshot is built without a
`volume_trend` argument, so the dataclass default UNKNOWN applies. -/
def analyze (bars : List Bar) (config : VPAConfig) (tf : String) : ContextSnapshot :=
  if bars.length < 2 then unknownContext tf
  else
    let ts := detectTrend bars config.trend.windowK
    let location := detectLocation bars config.trend.locationLookback
    let congestion := detectCongestion bars config.trend.congestionWindow
      config.trend.locationLookback config.trend.congestionPct
    { tf := tf
      trend := ts.1
      trendStrength := ts.2
      trendLocation := location
      congestion := congestion
      dominantAlignment := DominantAlignment.UNKNOWN }

/-- The `.value` string of a `Trend` member (the `str`-enum payload in
contracts.py). -/
def trendValue : Trend → String
  | Trend.UP => "UP"
  | Trend.DOWN => "DOWN"
  | Trend.RANGE => "RANGE"
  | Trend.UNKNOWN => "UNKNOWN"

/-- The `.value` string of a `VolumeTrend` member. -/
def volumeTrendValue : VolumeTrend → String
  | VolumeTrend.RISING => "RISING"
  | VolumeTrend.FALLING => "FALLING"
  | VolumeTrend.FLAT => "FLAT"
  | VolumeTrend.UNKNOWN => "UNKNOWN"

/-- The `.value` string of a `TrendStrength` member. -/
def trendStrengthValue : TrendStrength → String
  | TrendStrength.WEAK => "WEAK"
  | TrendStrength.MODERATE => "MODERATE"
  | TrendStrength.STRONG => "STRONG"

/-- daily_context.py `compute_dominant_alignment`: determine whether a
signal direction bias aligns with the daily trend. The Python
`bias = signal_direction_bias.upper().split("_")[0]` takes the leading
underscore-separated word, upper-cased. -/
def compute_dominant_alignment (dailyContext : ContextSnapshot)
    (signalDirectionBias : String) : DominantAlignment :=
  let dailyTrend := dailyContext.trend
  if dailyTrend = Trend.UNKNOWN ∨ dailyTrend = Trend.RANGE then
    DominantAlignment.UNKNOWN
  else
    let bias := ((signalDirectionBias.toUpper).splitOn "_").headD ""
    if ¬(bias = "BULLISH" ∨ bias = "BEARISH") then DominantAlignment.UNKNOWN
    else if bias = "BULLISH" ∧ dailyTrend = Trend.UP then DominantAlignment.WITH
    else if bias = "BEARISH" ∧ dailyTrend = Trend.DOWN then DominantAlignment.WITH
    else if bias = "BULLISH" ∧ dailyTrend = Trend.DOWN then DominantAlignment.AGAINST
    else if bias = "BEARISH" ∧ dailyTrend = Trend.UP then DominantAlignment.AGAINST
    else DominantAlignment.UNKNOWN

/-- rule_engine.py `detect_trend_val_1`. The source stamps
`ts=_now()` where `_now()` is `datetime.now(timezone.utc)`; the wall
clock is modelled as the explicit `now` argument. -/
def detect_trend_val_1 (now : Nat) (context : ContextSnapshot)
    (_config : VPAConfig) : Option SignalEvent :=
  if context.trend ≠ Trend.UP then none
  else if context.volumeTrend ≠ VolumeTrend.RISING then none
  else some
    { id := "TREND-VAL-1"
      name := "UptrendValidation_RisingPriceRisingVolume"
      tf := context.tf
      ts := now
      signalClass := SignalClass.VALIDATION
      directionBias := "BULLISH"
      priority := 2
      evidence :=
        [("trend", EvidenceVal.str (trendValue context.trend)),
         ("volume_trend", EvidenceVal.str (volumeTrendValue context.volumeTrend)),
         ("trend_strength", EvidenceVal.str (trendStrengthValue context.trendStrength))]
      requiresContextGate := false }

/-- rule_engine.py `detect_trend_anom_1`. As with TREND-VAL-1, the source
stamps `ts=_now()`; the wall clock is the explicit `now` argument. -/
def detect_trend_anom_1 (now : Nat) (context : ContextSnapshot)
    (_config : VPAConfig) : Option SignalEvent :=
  if context.trend ≠ Trend.UP then none
  else if context.volumeTrend ≠ VolumeTrend.FALLING then none
  else some
    { id := "TREND-ANOM-1"
      name := "UptrendWeakness_RisingPriceFallingVolume"
      tf := context.tf
      ts := now
      signalClass := SignalClass.ANOMALY
      directionBias := "BEARISH_OR_WAIT"
      priority := 2
      evidence :=
        [("trend", EvidenceVal.str (trendValue context.trend)),
         ("volume_trend", EvidenceVal.str (volumeTrendValue context.volumeTrend)),
         ("trend_strength", EvidenceVal.str (trendStrengthValue context.trendStrength))]
      requiresContextGate := true }

/-- rule_engine.py `evaluate_trend_rules`: run the trend-level detectors in
registration order and collect the non-None results. Both detectors read
the wall clock through `_now()`, passed here as `now`. -/
def evaluate_trend_rules (now : Nat) (context : ContextSnapshot)
    (config : VPAConfig) : List SignalEvent :=
  [detect_trend_val_1 now context config,
   detect_trend_anom_1 now context config].filterMap id

/-- Output of the context gate stage (context_gates.py `GateResult`).
`block_reasons` is a Python dict keyed by `"{id}@{ts}"`, modelled as an
insertion-ordered association list. -/
structure GateResult where
  actionable : List SignalEvent := []
  blocked : List SignalEvent := []
  blockReasons : List (String × String) := []
deriving DecidableEq, Repr

/-- Python dict assignment `m[k] = v`: overwrite in place when the key is
present, else append. -/
def dictInsert (m : List (String × String)) (k v : String) : List (String × String) :=
  if m.any (fun p => p.1 == k) then
    m.map (fun p => if p.1 == k then (k, v) else p)
  else m ++ [(k, v)]

/-- context_gates.py `_check_ctx_1`: block gated signals when trend
location is UNKNOWN (if the gate is enabled). -/
def check_ctx_1 (signal : SignalEvent) (context : ContextSnapshot)
    (config : VPAConfig) : Option String :=
  if ¬config.gates.ctx1TrendLocationRequired then none
  else if ¬signal.requiresContextGate then none
  else if context.trendLocation = TrendLocation.UNKNOWN then
    some "CTX-1: trend location UNKNOWN - cannot assess anomaly significance"
  else none

/-- context_gates.py `_check_ctx_2`: under the DISALLOW policy, block gated
signals whose dominant alignment is AGAINST. -/
def check_ctx_2 (signal : SignalEvent) (context : ContextSnapshot)
    (config : VPAConfig) : Option String :=
  if config.gates.ctx2DominantAlignmentPolicy ≠ "DISALLOW" then none
  else if ¬signal.requiresContextGate then none
  else if context.dominantAlignment = DominantAlignment.AGAINST then
    some "CTX-2: dominant alignment AGAINST - counter-trend signal blocked (DISALLOW policy)"
  else none

/-- context_gates.py `_check_ctx_3`: block gated anomaly-class signals when
congestion is active (if the gate is enabled). -/
def check_ctx_3 (signal : SignalEvent) (context : ContextSnapshot)
    (config : VPAConfig) : Option String :=
  if ¬config.gates.ctx3CongestionAwarenessRequired then none
  else if ¬signal.requiresContextGate then none
  else if ¬context.congestion.active then none
  else if signal.signalClass = SignalClass.ANOMALY then
    some "CTX-3: anomaly signal in congestion zone - ambiguous, blocked"
  else none

/-- The per-signal loop body of context_gates.py `apply_gates`: run
CTX-1, CTX-2, CTX-3 in order; the first blocker wins. -/
def firstBlockReason (signal : SignalEvent) (context : ContextSnapshot)
    (config : VPAConfig) : Option String :=
  match check_ctx_1 signal context config with
  | some r => some r
  | none =>
    match check_ctx_2 signal context config with
    | some r => some r
    | none => check_ctx_3 signal context config

/-- One iteration of the `for signal in signals` loop in `apply_gates`,
parameterised by the per-signal decision function. -/
def gateStep (decision : SignalEvent → Option String)
    (acc : GateResult) (signal : SignalEvent) : GateResult :=
  match decision signal with
  | some reason =>
    { acc with
      blocked := acc.blocked ++ [signal]
      blockReasons :=
        dictInsert acc.blockReasons (signal.id ++ "@" ++ toString signal.ts) reason }
  | none => { acc with actionable := acc.actionable ++ [signal] }

/-- context_gates.py `apply_gates`: apply all context gates to a list of
signals, splitting them into actionable and blocked. -/
def apply_gates (signals : List SignalEvent) (context : ContextSnapshot)
    (config : VPAConfig) : GateResult :=
  signals.foldl (gateStep (fun s => firstBlockReason s context config)) {}

/-- Modelled from the spec: the daily-aware CTX-2 check of the repository
is missing from the provided sources (only its callers in `pipeline.py`
and its tests reference `apply_gates(..., daily_context=...)`). Per the
spec, under DISALLOW the gate computes per-signal alignment using the
Daily-Context Resolver when a daily snapshot is supplied, else uses the
snapshot's static alignment, and blocks when the result is AGAINST.
The resolver itself, `compute_dominant_alignment`, is translated from
`daily_context.py`, which is present in the sources. -/
def check_ctx_2_daily (signal : SignalEvent) (context : ContextSnapshot)
    (config : VPAConfig) (dailyContext : Option ContextSnapshot) : Option String :=
  if config.gates.ctx2DominantAlignmentPolicy ≠ "DISALLOW" then none
  else if ¬signal.requiresContextGate then none
  else
    let alignment :=
      match dailyContext with
      | some daily => compute_dominant_alignment daily signal.directionBias
      | none => context.dominantAlignment
    if alignment = DominantAlignment.AGAINST then
      some "CTX-2: dominant alignment AGAINST - counter-trend signal blocked (DISALLOW policy)"
    else none

/-- Modelled from the spec: per-signal gate decision of the daily-aware
gate stage, CTX-1 then daily-aware CTX-2 then CTX-3, first blocker wins. -/
def firstBlockReasonDaily (signal : SignalEvent) (context : ContextSnapshot)
    (config : VPAConfig) (dailyContext : Option ContextSnapshot) : Option String :=
  match check_ctx_1 signal context config with
  | some r => some r
  | none =>
    match check_ctx_2_daily signal context config dailyContext with
    | some r => some r
    | none => check_ctx_3 signal context config

/-- Modelled from the spec: the daily-aware `apply_gates` used by
`run_pipeline` (missing from the provided sources). Identical to
`apply_gates` except that CTX-2 resolves per-signal alignment from the
daily snapshot when one is supplied. -/
def apply_gates_daily (signals : List SignalEvent) (context : ContextSnapshot)
    (config : VPAConfig) (dailyContext : Option ContextSnapshot) : GateResult :=
  signals.foldl (gateStep (fun s => firstBlockReasonDaily s context config dailyContext)) {}

/-- In-progress setup sequence (setup_composer.py `SetupCandidate`). -/
structure SetupCandidate where
  setupId : String
  direction : String
  state : SetupState
  signals : List SignalEvent := []
  startedAtBar : Int := 0
  expiresAtBar : Int := 0
deriving DecidableEq, Repr

/-- A completed setup sequence ready for the risk engine
(setup_composer.py `SetupMatch`). -/
structure SetupMatch where
  setupId : String
  direction : String
  signals : List SignalEvent
  matchedAtBar : Int
  tf : String
deriving DecidableEq, Repr

/-- One entry of setup_composer.py `_SETUP_DEFS`. -/
structure SetupDef where
  setupId : String
  trigger : String
  completers : List String
  direction : String
deriving DecidableEq, Repr

/-- setup_composer.py `_SETUP_DEFS` in dict insertion order. -/
def setupDefs : List SetupDef :=
  [{ setupId := "ENTRY-LONG-1", trigger := "TEST-SUP-1",
     completers := ["VAL-1"], direction := "LONG" },
   { setupId := "ENTRY-LONG-2", trigger := "STR-1",
     completers := ["CONF-1"], direction := "LONG" },
   { setupId := "ENTRY-SHORT-1", trigger := "CLIMAX-SELL-1",
     completers := ["WEAK-1", "WEAK-2"], direction := "SHORT" }]

/-- setup_composer.py `_HARD_AVOIDANCE`. -/
def hardAvoidance : List String := ["AVOID-NEWS-1"]

/-- Mutable state of a `SetupComposer` instance: the `_window_x` snapshot
of `config.setup.window_X` and the `_candidates` list. -/
structure ComposerState where
  windowX : Int
  candidates : List SetupCandidate := []
deriving DecidableEq, Repr

/-- setup_composer.py `SetupComposer.__init__`. -/
def initComposer (config : VPAConfig) : ComposerState :=
  { windowX := config.setup.windowX, candidates := [] }

/-- setup_composer.py `_expire_candidates`: mark CANDIDATEs past their
window EXPIRED, then keep only the remaining CANDIDATEs. -/
def expireCandidates (barIndex : Int) (cs : List SetupCandidate) : List SetupCandidate :=
  (cs.map (fun c =>
    if c.state = SetupState.CANDIDATE ∧ barIndex > c.expiresAtBar then
      { c with state := SetupState.EXPIRED }
    else c)).filter (fun c => decide (c.state = SetupState.CANDIDATE))

/-- The `should_invalidate_longs` flag of `_invalidate_candidates`. -/
def shouldInvalidateLongs (signals : List SignalEvent) : Bool :=
  signals.any (fun sig => decide
    ((sig.signalClass = SignalClass.ANOMALY ∧ sig.priority ≥ 2) ∨
     (sig.signalClass = SignalClass.AVOIDANCE ∧ sig.id ∈ hardAvoidance)))

/-- The `should_invalidate_shorts` flag of `_invalidate_candidates`. -/
def shouldInvalidateShorts (signals : List SignalEvent) : Bool :=
  signals.any (fun sig => decide
    (sig.signalClass = SignalClass.VALIDATION ∨ sig.signalClass = SignalClass.STRENGTH))

/-- setup_composer.py `_invalidate_candidates`: mark opposing candidates
INVALIDATED, then keep only the remaining CANDIDATEs. -/
def invalidateCandidates (signals : List SignalEvent) (cs : List SetupCandidate) :
    List SetupCandidate :=
  let invL := shouldInvalidateLongs signals
  let invS := shouldInvalidateShorts signals
  (cs.map (fun c =>
    if c.state ≠ SetupState.CANDIDATE then c
    else if c.direction = "LONG" ∧ invL = true then { c with state := SetupState.INVALIDATED }
    else if c.direction = "SHORT" ∧ invS = true then { c with state := SetupState.INVALIDATED }
    else c)).filter (fun c => decide (c.state = SetupState.CANDIDATE))

/-- setup_composer.py `_SETUP_DEFS.get(candidate.setup_id)`. -/
def lookupSetupDef (setupId : String) : Option SetupDef :=
  setupDefs.find? (fun d => d.setupId == setupId)

/-- The body of the `for candidate in self._candidates` loop of
`_check_completions`: consume at most the first matching completer signal,
transition the candidate to READY, and emit the match. -/
def completeOne (signals : List SignalEvent) (barIndex : Int)
    (c : SetupCandidate) : SetupCandidate × Option SetupMatch :=
  if c.state ≠ SetupState.CANDIDATE then (c, none)
  else
    match lookupSetupDef c.setupId with
    | none => (c, none)
    | some defn =>
      match signals.find? (fun sig => decide (sig.id ∈ defn.completers)) with
      | none => (c, none)
      | some sig =>
        let c' := { c with signals := c.signals ++ [sig], state := SetupState.READY }
        (c', some
          { setupId := c.setupId
            direction := c.direction
            signals := c.signals ++ [sig]
            matchedAtBar := barIndex
            tf := sig.tf })

/-- setup_composer.py `_check_completions`: updated candidate list (the
loop mutates candidates in place) together with the emitted matches in
candidate order. -/
def checkCompletions (signals : List SignalEvent) (barIndex : Int)
    (cs : List SetupCandidate) : List SetupCandidate × List SetupMatch :=
  let pairs := cs.map (completeOne signals barIndex)
  (pairs.map Prod.fst, pairs.filterMap Prod.snd)

/-- The inner `for setup_id, defn in self._SETUP_DEFS.items()` loop body of
`_open_new_candidates`. -/
def openForDef (barIndex windowX : Int) (sig : SignalEvent)
    (cs : List SetupCandidate) (d : SetupDef) : List SetupCandidate :=
  if sig.id = d.trigger then
    if cs.any (fun c => decide (c.setupId = d.setupId ∧ c.state = SetupState.CANDIDATE)) then
      cs
    else
      cs ++ [{ setupId := d.setupId
               direction := d.direction
               state := SetupState.CANDIDATE
               signals := [sig]
               startedAtBar := barIndex
               expiresAtBar := barIndex + windowX }]
  else cs

/-- setup_composer.py `_open_new_candidates`: start new candidates when a
trigger signal appears and no CANDIDATE with that setup id is tracked. -/
def openNewCandidates (barIndex windowX : Int) (signals : List SignalEvent)
    (cs : List SetupCandidate) : List SetupCandidate :=
  signals.foldl (fun acc sig => setupDefs.foldl (openForDef barIndex windowX sig) acc) cs

/-- setup_composer.py `process_signals`: expire, invalidate, complete,
then open; returns the updated composer state and this bar's matches. -/
def processSignals (st : ComposerState) (signals : List SignalEvent)
    (barIndex : Int) : ComposerState × List SetupMatch :=
  let cs1 := expireCandidates barIndex st.candidates
  let cs2 := invalidateCandidates signals cs1
  let p := checkCompletions signals barIndex cs2
  let cs4 := openNewCandidates barIndex st.windowX signals p.1
  ({ st with candidates := cs4 }, p.2)

/-- A whole session: fold `process_signals` over a sequence of per-bar
invocations, starting from a freshly constructed composer. -/
def runComposer (config : VPAConfig) (steps : List (List SignalEvent × Int)) :
    ComposerState :=
  steps.foldl (fun st step => (processSignals st step.1 step.2).1) (initComposer config)

/-- Numeric lookup in an evidence dict: `evidence.get(key)` followed by
`float(...)`. Evidence values written by the pipeline for `bar_low` and
`bar_high` are numeric scalars; a non-numeric value yields `none`. -/
def evidenceGetNum (e : Evidence) (key : String) : Option ℚ :=
  match e.find? (fun p => p.1 == key) with
  | some (_, EvidenceVal.num q) => some q
  | _ => none

/-- risk_engine.py `_compute_stop_bar_based`: LONG stops at the trigger
bar's low (fallback 2 percent below price); SHORT at the trigger bar's
high (fallback 2 percent above price). -/
def compute_stop_bar_based (match_ : SetupMatch) (currentPrice : ℚ) : ℚ :=
  match match_.signals with
  | [] => currentPrice * (98/100)
  | trigger :: _ =>
    if match_.direction = "SHORT" then
      match evidenceGetNum trigger.evidence "bar_high" with
      | some barHigh => barHigh
      | none => currentPrice * (102/100)
    else
      match evidenceGetNum trigger.evidence "bar_low" with
      | some barLow => barLow
      | none => currentPrice * (98/100)

/-- risk_engine.py `_compute_stop_atr`: LONG stop = price - ATR x mult;
SHORT stop = price + ATR x mult. -/
def compute_stop_atr (direction : String) (currentPrice atrValue multiplier : ℚ) : ℚ :=
  let distance := atrValue * multiplier
  if direction = "SHORT" then currentPrice + distance
  else currentPrice - distance

/-- risk_engine.py `_compute_stop`: ATR-based when enabled and ATR is
positive, else bar-based; returns the stop and the method label. -/
def compute_stop (match_ : SetupMatch) (currentPrice : ℚ) (config : VPAConfig)
    (atrValue : ℚ) : ℚ × String :=
  if config.atr.enabled ∧ atrValue > 0 then
    (compute_stop_atr match_.direction currentPrice atrValue config.atr.stopMultiplier,
     "ATR")
  else
    (compute_stop_bar_based match_ currentPrice, "BAR")

/-- risk_engine.py `_compute_size`: position size from the risk budget;
0 when the per-share risk is non-positive. -/
def compute_size (equity riskPct entryPrice stopPrice : ℚ) : Int :=
  let riskPerShare := |entryPrice - stopPrice|
  if riskPerShare ≤ 0 then 0
  else max 1 (Int.floor ((equity * riskPct) / riskPerShare))

/-- Best-effort rendering of Python `f"{p:.1%}"` for the daily-loss reject
reason (one decimal, half-up; CPython formats the float with banker's
rounding, a display-only difference no claim depends on). -/
def fmtPct1 (p : ℚ) : String :=
  let tenths : Int := Int.floor (p * 1000 + 1/2)
  toString (tenths / 10) ++ "." ++ toString (tenths % 10) ++ "%"

/-- risk_engine.py `_reject`: build a REJECTED TradeIntent with a zeroed
risk plan. -/
def rejectIntent (intentId : String) (match_ : SetupMatch) (config : VPAConfig)
    (reason : String) (rationale : List String) : TradeIntent :=
  { intentId := intentId
    direction := match_.direction
    tf := match_.tf
    setup := match_.setupId
    status := TradeIntentStatus.REJECTED
    entryPlan := { timing := config.execution.entryTiming, orderType := "MARKET" }
    riskPlan := { stop := 0, riskPct := 0, size := 0 }
    rationale := rationale
    rejectReason := some reason }

/-- The `"stop:ATR({period})x{mult}"` rationale entry (the decimal
rendering of the multiplier is abstracted by the rational's string). -/
def atrRationale (config : VPAConfig) : String :=
  "stop:ATR(" ++ toString config.atr.period ++ ")x" ++ toString config.atr.stopMultiplier

/-- The stop / counter-trend / sizing tail of risk_engine.py
`evaluate_risk` (everything after the two hard rejects). -/
def evaluateRiskMain (intentId : String) (rationale : List String)
    (match_ : SetupMatch) (currentPrice : ℚ) (account : AccountState)
    (context : ContextSnapshot) (config : VPAConfig) (atrValue : ℚ) : TradeIntent :=
  let stopMethod := compute_stop match_ currentPrice config atrValue
  let stop := stopMethod.1
  let rationale2 :=
    if stopMethod.2 = "ATR" then rationale ++ [atrRationale config] else rationale
  let riskPctBase := config.risk.riskPctPerTrade
  let adjusted : ℚ × List String :=
    if config.gates.ctx2DominantAlignmentPolicy = "REDUCE_RISK" then
      if context.dominantAlignment = DominantAlignment.AGAINST then
        (riskPctBase * config.risk.countertrendMultiplier,
         rationale2 ++ ["CTX-2:AGAINST(risk_reduced)"])
      else if context.dominantAlignment = DominantAlignment.WITH then
        (riskPctBase, rationale2 ++ ["CTX-2:WITH"])
      else (riskPctBase, rationale2)
    else (riskPctBase, rationale2)
  let size := compute_size account.equity adjusted.1 currentPrice stop
  if size ≤ 0 then
    rejectIntent intentId match_ config
      "Computed size is zero (stop too close or equity too low)" adjusted.2
  else
    { intentId := intentId
      direction := match_.direction
      tf := match_.tf
      setup := match_.setupId
      status := TradeIntentStatus.READY
      entryPlan := { timing := config.execution.entryTiming, orderType := "MARKET" }
      riskPlan := { stop := stop, riskPct := adjusted.1, size := size }
      rationale := adjusted.2
      rejectReason := none }

/-- risk_engine.py `evaluate_risk`: hard rejects, stop placement,
counter-trend adjustment, sizing, and the final TradeIntent. -/
def evaluate_risk (match_ : SetupMatch) (currentPrice : ℚ) (account : AccountState)
    (context : ContextSnapshot) (config : VPAConfig) (atrValue : ℚ) : TradeIntent :=
  let intentId := "TI-" ++ match_.setupId ++ "-bar" ++ toString match_.matchedAtBar
  let rationale := match_.signals.map (fun sig => sig.id)
  if account.openPositionCount ≥ config.risk.maxConcurrentPositions then
    rejectIntent intentId match_ config
      ("Max concurrent positions (" ++ toString config.risk.maxConcurrentPositions
        ++ ") reached")
      rationale
  else
    match config.risk.dailyLossLimitPct with
    | some p =>
      if account.dailyRealizedPnl ≤ -(account.equity * p) then
        rejectIntent intentId match_ config
          ("Daily loss limit (" ++ fmtPct1 p ++ ") reached") rationale
      else
        evaluateRiskMain intentId rationale match_ currentPrice account context config atrValue
    | none =>
      evaluateRiskMain intentId rationale match_ currentPrice account context config atrValue

/-- The repository's default configuration (docs/config/vpa.default.json,
values as asserted by the repository's tests), used as the concrete
config for witnesses and counterexamples. -/
def cfgDefault : VPAConfig :=
  { version := "1.0"
    vol := { avgWindowN := 20,
             thresholds := { lowLt := 4/5, highGt := 6/5, ultraHighGt := 9/5 } }
    spread := { avgWindowM := 20,
                thresholds := { narrowLt := 4/5, wideGt := 6/5 } }
    trend := { windowK := 5, locationLookback := 20,
               congestionWindow := 10, congestionPct := 3/10 }
    setup := { windowX := 5 }
    gates := { ctx1TrendLocationRequired := true
               ctx2DominantAlignmentPolicy := "REDUCE_RISK"
               ctx3CongestionAwarenessRequired := true }
    execution := { signalEval := "BAR_CLOSE_ONLY", entryTiming := "NEXT_BAR_OPEN",
                   intrabarAllowed := false }
    costs := { feeModel := "BPS", feeValue := 0 }
    slippage := { model := "BPS", value := 0 }
    candlePatterns :=
      { hammer := { lowerWickRatioMin := 3/5, bodyRatioMax := 33/100,
                    upperWickRatioMax := 1/10 }
        shootingStar := { upperWickRatioMin := 3/5, bodyRatioMax := 33/100,
                          lowerWickRatioMax := 1/10 }
        longLeggedDoji := { bodyRatioMax := 1/4, minWickRatio := 1/4 } }
    risk := { riskPctPerTrade := 1/200, maxConcurrentPositions := 1,
              countertrendMultiplier := 1/2, dailyLossLimitPct := some (1/50) }
    volumeGuard := { enabled := true, minAvgVolume := 10000 }
    atr := { period := 14, stopMultiplier := 3/2, enabled := false } }

/-- `cfgDefault` with the CTX-2 policy set to DISALLOW (as the repository
tests do through a config override). -/
def cfgDisallow : VPAConfig :=
  { cfgDefault with
    gates := { cfgDefault.gates with ctx2DominantAlignmentPolicy := "DISALLOW" } }

/-- A degenerate two-bar history: both bars have high = low = close = 100,
so the location window has 2 bars and zero price range. -/
def degenerateBars : List Bar :=
  [{ open_ := 100, high := 100, low := 100, close := 100, volume := 1000,
     timestamp := 0, symbol := "SPY" },
   { open_ := 100, high := 100, low := 100, close := 100, volume := 1000,
     timestamp := 1, symbol := "SPY" }]

/-- Concrete snapshot for C1: intraday trend UP with rising volume trend,
so TREND-VAL-1 fires. -/
def ctxTrendRising : ContextSnapshot :=
  { tf := "15m"
    trend := Trend.UP
    trendStrength := TrendStrength.STRONG
    trendLocation := TrendLocation.MIDDLE
    congestion := { active := false }
    dominantAlignment := DominantAlignment.UNKNOWN
    volumeTrend := VolumeTrend.RISING }

/-- Concrete bullish non-gated VAL-1-shaped signal for gate witnesses. -/
def sigVal1W : SignalEvent :=
  { id := "VAL-1", name := "SingleBarValidation_BullishDrive", tf := "15m", ts := 7
    signalClass := SignalClass.VALIDATION, directionBias := "BULLISH"
    priority := 1, evidence := [], requiresContextGate := false }

/-- Concrete gated bearish ANOM-1-shaped signal for gate witnesses. -/
def sigAnom1W : SignalEvent :=
  { id := "ANOM-1", name := "BigResultLittleEffort_TrapUpWarning", tf := "15m", ts := 3
    signalClass := SignalClass.ANOMALY, directionBias := "BEARISH_OR_WAIT"
    priority := 2, evidence := [], requiresContextGate := true }

/-- Concrete intraday snapshot with congestion active and trend location
UNKNOWN - the harshest gate environment for the C8 witness. -/
def ctxHarsh : ContextSnapshot :=
  { tf := "15m"
    trend := Trend.RANGE
    trendStrength := TrendStrength.WEAK
    trendLocation := TrendLocation.UNKNOWN
    congestion := { active := true, rangeHigh := some 101, rangeLow := some 100 }
    dominantAlignment := DominantAlignment.AGAINST }

/-- The per-signal dominant alignment CTX-2 resolves under the DISALLOW
policy: via the Daily-Context Resolver when a daily snapshot is supplied,
else the intraday snapshot's static alignment (spec section 4.5). -/
def resolvedAlignment (ctx : ContextSnapshot) (daily : Option ContextSnapshot)
    (s : SignalEvent) : DominantAlignment :=
  match daily with
  | some d => compute_dominant_alignment d s.directionBias
  | none => ctx.dominantAlignment

/-- Daily snapshot with trend UP for the C2 witness. -/
def dailyUpW : ContextSnapshot :=
  { tf := "1d"
    trend := Trend.UP
    trendStrength := TrendStrength.STRONG
    trendLocation := TrendLocation.TOP
    congestion := { active := false } }

/-- Intraday snapshot with known trend location and static alignment WITH
for the C2 witness (the static alignment must be ignored when a daily
snapshot is supplied). -/
def ctxIntradayW : ContextSnapshot :=
  { tf := "15m"
    trend := Trend.UP
    trendStrength := TrendStrength.MODERATE
    trendLocation := TrendLocation.BOTTOM
    congestion := { active := false }
    dominantAlignment := DominantAlignment.WITH }

/-- The effective risk percentage after step 4 of the risk engine: reduced
by the countertrend multiplier only under REDUCE_RISK with AGAINST
alignment (risk_engine.py lines 172-181). -/
def effectiveRiskPct (context : ContextSnapshot) (config : VPAConfig) : ℚ :=
  if config.gates.ctx2DominantAlignmentPolicy = "REDUCE_RISK" ∧
      context.dominantAlignment = DominantAlignment.AGAINST then
    config.risk.riskPctPerTrade * config.risk.countertrendMultiplier
  else config.risk.riskPctPerTrade

/-- Gated TEST-SUP-1-shaped trigger signal whose evidence carries the
trigger bar's low at 98, for risk-engine witnesses. -/
def sigTestSupW : SignalEvent :=
  { id := "TEST-SUP-1", name := "TestOfSupply_SellingPressureRemoved", tf := "15m"
    ts := 2, signalClass := SignalClass.TEST, directionBias := "BULLISH"
    priority := 1, evidence := [("bar_low", EvidenceVal.num 98)]
    requiresContextGate := true }

/-- Completed ENTRY-LONG-1 match for risk-engine witnesses. -/
def matchLongW : SetupMatch :=
  { setupId := "ENTRY-LONG-1", direction := "LONG"
    signals := [sigTestSupW, sigVal1W], matchedAtBar := 5, tf := "15m" }

/-- Account with 100000 equity, no open positions, flat daily PnL. -/
def acctW : AccountState := { equity := 100000 }

/-- Default config with ATR stops enabled (period 14, multiplier 1.5). -/
def cfgAtrOn : VPAConfig :=
  { cfgDefault with atr := { period := 14, stopMultiplier := 3/2, enabled := true } }

/-- Number of candidates in CANDIDATE state tracked for a given setup id. -/
def candCount (cs : List SetupCandidate) (sid : String) : Nat :=
  cs.countP (fun c => decide (c.setupId = sid ∧ c.state = SetupState.CANDIDATE))

/-- Pre-state for the C10 witness: the composer after a TEST-SUP-1 trigger
at bar 0 (one ENTRY-LONG-1 CANDIDATE). -/
def composerAfterTrigger : ComposerState :=
  (processSignals (initComposer cfgDefault) [sigTestSupW] 0).1

/-- The ENTRY-LONG-1 match emitted at bar 1 when VAL-1 arrives. -/
def matchEntryLong1W : SetupMatch :=
  { setupId := "ENTRY-LONG-1", direction := "LONG"
    signals := [sigTestSupW, sigVal1W], matchedAtBar := 1, tf := "15m" }

section Claims


/-- Helper for C6: characterization of `classify_volume` under ordered
thresholds. -/
lemma classify_volume_iff (config : VPAConfig) (v : ℚ)
    (h1 : config.vol.thresholds.lowLt ≤ config.vol.thresholds.highGt)
    (h2 : config.vol.thresholds.highGt ≤ config.vol.thresholds.ultraHighGt) :
    (classify_volume v config = VolumeState.LOW ↔ v < config.vol.thresholds.lowLt) ∧
    (classify_volume v config = VolumeState.AVERAGE ↔
      config.vol.thresholds.lowLt ≤ v ∧ v ≤ config.vol.thresholds.highGt) ∧
    (classify_volume v config = VolumeState.HIGH ↔
      config.vol.thresholds.highGt < v ∧ v ≤ config.vol.thresholds.ultraHighGt) ∧
    (classify_volume v config = VolumeState.ULTRA_HIGH ↔
      v > config.vol.thresholds.ultraHighGt) := by
  simp only [classify_volume]
  split_ifs with ha hb hc <;>
    refine ⟨?_, ?_, ?_, ?_⟩ <;> simp only [reduceCtorEq, false_iff, true_iff, iff_true,
      iff_false, not_lt, not_and, not_le] <;>
    first
      | linarith
      | (constructor <;> intro <;> linarith)
      | (exact ⟨by linarith, by linarith⟩)
      | (intro hx; linarith)

/-- Helper for C6: characterization of `classify_spread` under ordered
thresholds. -/
lemma classify_spread_iff (config : VPAConfig) (s : ℚ)
    (h3 : config.spread.thresholds.narrowLt ≤ config.spread.thresholds.wideGt) :
    (classify_spread s config = SpreadState.NARROW ↔
      s < config.spread.thresholds.narrowLt) ∧
    (classify_spread s config = SpreadState.NORMAL ↔
      config.spread.thresholds.narrowLt ≤ s ∧ s ≤ config.spread.thresholds.wideGt) ∧
    (classify_spread s config = SpreadState.WIDE ↔ s > config.spread.thresholds.wideGt) := by
  simp only [classify_spread]
  split_ifs with ha hb <;>
    refine ⟨?_, ?_, ?_⟩ <;> simp only [reduceCtorEq, false_iff, true_iff, iff_true,
      iff_false, not_lt, not_and, not_le] <;>
    first
      | linarith
      | (constructor <;> intro <;> linarith)
      | (exact ⟨by linarith, by linarith⟩)
      | (intro hx; linarith)

/-- C6. Classification boundary discipline: with thresholds in order,
`classify_volume` returns LOW iff vol_rel < low_lt, AVERAGE iff
low_lt <= vol_rel <= high_gt, HIGH iff high_gt < vol_rel <= ultra_high_gt,
ULTRA_HIGH iff vol_rel > ultra_high_gt; and `classify_spread` mirrors this
with NARROW / NORMAL / WIDE. Values exactly at a threshold fall on the
AVERAGE / NORMAL side. -/
theorem c6_classification_boundary_discipline (config : VPAConfig) (v s : ℚ)
    (h1 : config.vol.thresholds.lowLt ≤ config.vol.thresholds.highGt)
    (h2 : config.vol.thresholds.highGt ≤ config.vol.thresholds.ultraHighGt)
    (h3 : config.spread.thresholds.narrowLt ≤ config.spread.thresholds.wideGt) :
    (classify_volume v config = VolumeState.LOW ↔ v < config.vol.thresholds.lowLt) ∧
    (classify_volume v config = VolumeState.AVERAGE ↔
      config.vol.thresholds.lowLt ≤ v ∧ v ≤ config.vol.thresholds.highGt) ∧
    (classify_volume v config = VolumeState.HIGH ↔
      config.vol.thresholds.highGt < v ∧ v ≤ config.vol.thresholds.ultraHighGt) ∧
    (classify_volume v config = VolumeState.ULTRA_HIGH ↔
      v > config.vol.thresholds.ultraHighGt) ∧
    (classify_spread s config = SpreadState.NARROW ↔
      s < config.spread.thresholds.narrowLt) ∧
    (classify_spread s config = SpreadState.NORMAL ↔
      config.spread.thresholds.narrowLt ≤ s ∧ s ≤ config.spread.thresholds.wideGt) ∧
    (classify_spread s config = SpreadState.WIDE ↔ s > config.spread.thresholds.wideGt) := by
  obtain ⟨hv1, hv2, hv3, hv4⟩ := classify_volume_iff config v h1 h2
  obtain ⟨hs1, hs2, hs3⟩ := classify_spread_iff config s h3
  exact ⟨hv1, hv2, hv3, hv4, hs1, hs2, hs3⟩

/-- Witness for C6: at the default thresholds, the values exactly at
low_lt = 0.8 and wide_gt = 1.2 classify as AVERAGE and NORMAL. -/
theorem c6_witness :
    classify_volume (4/5) cfgDefault = VolumeState.AVERAGE ∧
    classify_spread (6/5) cfgDefault = SpreadState.NORMAL := by
  have h := c6_classification_boundary_discipline cfgDefault (4/5) (6/5)
    (by with_unfolding_all decide) (by with_unfolding_all decide)
    (by with_unfolding_all decide)
  exact ⟨h.2.1.mpr (by with_unfolding_all decide),
    h.2.2.2.2.2.1.mpr (by with_unfolding_all decide)⟩

/-- C3. Divergence theorem: the context engine never computes a volume
trend. `analyze` builds the snapshot without a `volume_trend` argument, so
every snapshot it returns carries the dataclass default UNKNOWN - for
every bar history, config and timeframe, including histories whose
bar-to-bar volume transitions are all rising (where the spec and the
repository's own tests require RISING). -/
theorem c3_analyze_volume_trend_always_unknown
    (bars : List Bar) (config : VPAConfig) (tf : String) :
    (analyze bars config tf).volumeTrend = VolumeTrend.UNKNOWN := by
  unfold analyze
  split
  · rfl
  · rfl

/-- C5 counterexample: on a 2-bar window with a degenerate range
(highest - lowest = 0), `_detect_location` returns MIDDLE, not UNKNOWN as
the claim states. -/
theorem c5_counterexample :
    (locationWindow degenerateBars 20).length = 2 ∧
    maxHigh (locationWindow degenerateBars 20) -
      minLow (locationWindow degenerateBars 20) ≤ 0 ∧
    detectLocation degenerateBars 20 = TrendLocation.MIDDLE ∧
    detectLocation degenerateBars 20 ≠ TrendLocation.UNKNOWN := by
  refine ⟨?_, ?_, ?_, ?_⟩ <;> with_unfolding_all decide

/-- C5 (amended). Trend location over the lookback window: UNKNOWN when
the window has fewer than 2 bars; MIDDLE (not UNKNOWN) when the range is
degenerate (highest - lowest <= 0); otherwise, with
pct = (last_close - lowest) / (highest - lowest), TOP when pct >= 0.75,
BOTTOM when pct <= 0.25, and MIDDLE when 0.25 < pct < 0.75. -/
theorem c5_trend_location (bars : List Bar) (lookback : Int) :
    (let window := locationWindow bars lookback
     let highest := maxHigh window
     let lowest := minLow window
     let pct := (lastClose bars - lowest) / (highest - lowest)
     (window.length < 2 → detectLocation bars lookback = TrendLocation.UNKNOWN) ∧
     (2 ≤ window.length → highest - lowest ≤ 0 →
        detectLocation bars lookback = TrendLocation.MIDDLE) ∧
     (2 ≤ window.length → 0 < highest - lowest → pct ≥ 3/4 →
        detectLocation bars lookback = TrendLocation.TOP) ∧
     (2 ≤ window.length → 0 < highest - lowest → pct ≤ 1/4 →
        detectLocation bars lookback = TrendLocation.BOTTOM) ∧
     (2 ≤ window.length → 0 < highest - lowest → 1/4 < pct → pct < 3/4 →
        detectLocation bars lookback = TrendLocation.MIDDLE)) := by
  refine ⟨?_, ?_, ?_, ?_, ?_⟩ <;> intro h1 <;> unfold detectLocation
  · rw [if_pos h1]
  · intro h2
    rw [if_neg (by omega), if_pos h2]
  · intro h2 h3
    rw [if_neg (by omega), if_neg (by linarith), if_pos h3]
  · intro h2 h3
    rw [if_neg (by omega), if_neg (by linarith), if_neg (by linarith), if_pos h3]
  · intro h2 h3 h4
    rw [if_neg (by omega), if_neg (by linarith), if_neg (by linarith),
      if_neg (by linarith)]

/-- Witness for C5: a rising 2-bar history whose last close sits at the
top of the range is classified TOP via the amended theorem. -/
theorem c5_witness :
    detectLocation
      [{ open_ := 100, high := 101, low := 99, close := 100, volume := 1000,
         timestamp := 0, symbol := "SPY" },
       { open_ := 100, high := 105, low := 100, close := 105, volume := 1000,
         timestamp := 1, symbol := "SPY" }] 20 = TrendLocation.TOP := by
  exact (c5_trend_location _ 20).2.2.1 (by with_unfolding_all decide)
    (by with_unfolding_all decide) (by with_unfolding_all decide)

/-- C1 (code bug). Determinism fails at `evaluate_trend_rules`: the source
stamps each trend-level signal with `ts=_now()`, i.e. the wall clock at
evaluation time, so two invocations on the same ContextSnapshot and config
at different instants return different SignalEvent lists (they differ in
the `ts` field). With the clock modelled as an explicit argument, the two
invocations at instants 0 and 1 on a trend-UP / volume-RISING snapshot
produce unequal outputs. -/
theorem c1_trend_rules_nondeterministic :
    evaluate_trend_rules 0 ctxTrendRising cfgDefault ≠
      evaluate_trend_rules 1 ctxTrendRising cfgDefault ∧
    (evaluate_trend_rules 0 ctxTrendRising cfgDefault).map SignalEvent.ts = [0] ∧
    (evaluate_trend_rules 1 ctxTrendRising cfgDefault).map SignalEvent.ts = [1] := by
  refine ⟨?_, ?_, ?_⟩ <;> with_unfolding_all decide

/-- Helper: the actionable side of the gate fold is the input filtered to
signals whose gate decision is `none`. -/
lemma gateFold_actionable (decision : SignalEvent → Option String)
    (signals : List SignalEvent) (acc : GateResult) :
    (signals.foldl (gateStep decision) acc).actionable =
      acc.actionable ++ signals.filter (fun s => (decision s).isNone) := by
  induction signals generalizing acc with
  | nil => simp
  | cons s rest ih =>
    rw [List.foldl_cons, ih]
    unfold gateStep
    cases h : decision s <;> simp [h, List.filter_cons]

/-- Helper: the blocked side of the gate fold is the input filtered to
signals whose gate decision is `some`. -/
lemma gateFold_blocked (decision : SignalEvent → Option String)
    (signals : List SignalEvent) (acc : GateResult) :
    (signals.foldl (gateStep decision) acc).blocked =
      acc.blocked ++ signals.filter (fun s => (decision s).isSome) := by
  induction signals generalizing acc with
  | nil => simp
  | cons s rest ih =>
    rw [List.foldl_cons, ih]
    unfold gateStep
    cases h : decision s <;> simp [h, List.filter_cons]

/-- Helper for C8: a signal that does not require a context gate passes
every individual gate check. -/
lemma firstBlockReason_none_of_not_gated (s : SignalEvent) (ctx : ContextSnapshot)
    (config : VPAConfig) (hgate : s.requiresContextGate = false) :
    firstBlockReason s ctx config = none := by
  unfold firstBlockReason check_ctx_1 check_ctx_2 check_ctx_3
  simp [hgate]

/-- C8. Gate monotonicity: for every signal list, snapshot and config,
every signal with `requires_context_gate = false` lands in the actionable
output of `apply_gates` - it bypasses CTX-1, CTX-2 and CTX-3 regardless of
gate toggles, trend location, alignment or congestion. -/
theorem c8_gate_monotonicity (signals : List SignalEvent) (ctx : ContextSnapshot)
    (config : VPAConfig) (s : SignalEvent) (hmem : s ∈ signals)
    (hgate : s.requiresContextGate = false) :
    s ∈ (apply_gates signals ctx config).actionable := by
  unfold apply_gates
  rw [gateFold_actionable]
  simp only [GateResult.actionable, List.nil_append]
  rw [List.mem_filter]
  exact ⟨hmem, by rw [firstBlockReason_none_of_not_gated s ctx config hgate]; rfl⟩

/-- Witness for C8: the non-gated VAL-1 signal is actionable even with all
gates enabled, DISALLOW policy, AGAINST alignment, UNKNOWN location and
active congestion. -/
theorem c8_witness :
    sigVal1W ∈ (apply_gates [sigAnom1W, sigVal1W] ctxHarsh cfgDisallow).actionable :=
  c8_gate_monotonicity [sigAnom1W, sigVal1W] ctxHarsh cfgDisallow sigVal1W
    (by with_unfolding_all decide) rfl

/-- Helper for C2: under DISALLOW, for a gated signal the CTX-2 decision
is exactly "blocked iff the resolved alignment is AGAINST". -/
lemma check_ctx_2_daily_eq (s : SignalEvent) (ctx : ContextSnapshot)
    (config : VPAConfig) (daily : Option ContextSnapshot)
    (hpol : config.gates.ctx2DominantAlignmentPolicy = "DISALLOW")
    (hgate : s.requiresContextGate = true) :
    check_ctx_2_daily s ctx config daily =
      (if resolvedAlignment ctx daily s = DominantAlignment.AGAINST then
        some "CTX-2: dominant alignment AGAINST - counter-trend signal blocked (DISALLOW policy)"
      else none) := by
  unfold check_ctx_2_daily resolvedAlignment
  simp [hpol, hgate]

/-- C2. CTX-2 under the DISALLOW policy: for every gated signal, the gate
computes that signal's dominant alignment per-signal via the Daily-Context
Resolver from the daily trend and the signal's direction_bias when a daily
snapshot is supplied, and uses the intraday snapshot's static
dominant_alignment otherwise; for a signal that CTX-1 passes, it is
blocked by the gate stage exactly when that resolved alignment is AGAINST
(CTX-2 itself never blocks otherwise). -/
theorem c2_ctx2_disallow (signals : List SignalEvent) (s : SignalEvent)
    (ctx : ContextSnapshot) (config : VPAConfig) (daily : Option ContextSnapshot)
    (hmem : s ∈ signals)
    (hpol : config.gates.ctx2DominantAlignmentPolicy = "DISALLOW")
    (hgate : s.requiresContextGate = true)
    (hctx1 : check_ctx_1 s ctx config = none) :
    (resolvedAlignment ctx daily s = DominantAlignment.AGAINST →
      s ∈ (apply_gates_daily signals ctx config daily).blocked) ∧
    (resolvedAlignment ctx daily s ≠ DominantAlignment.AGAINST →
      check_ctx_2_daily s ctx config daily = none) := by
  constructor
  · intro hal
    unfold apply_gates_daily
    rw [gateFold_blocked]
    simp only [GateResult.blocked, List.nil_append]
    rw [List.mem_filter]
    refine ⟨hmem, ?_⟩
    unfold firstBlockReasonDaily
    rw [hctx1, check_ctx_2_daily_eq s ctx config daily hpol hgate, if_pos hal]
    rfl
  · intro hal
    rw [check_ctx_2_daily_eq s ctx config daily hpol hgate, if_neg hal]

/-- Witness for C2: under DISALLOW with a daily UP snapshot, the gated
BEARISH_OR_WAIT signal resolves AGAINST per-signal (even though the
intraday snapshot's static alignment is WITH) and is blocked. -/
theorem c2_witness :
    sigAnom1W ∈
      (apply_gates_daily [sigAnom1W] ctxIntradayW cfgDisallow (some dailyUpW)).blocked :=
  (c2_ctx2_disallow [sigAnom1W] sigAnom1W ctxIntradayW cfgDisallow (some dailyUpW)
    (by with_unfolding_all decide) rfl rfl (by with_unfolding_all decide)).1
    (by with_unfolding_all decide)

/-- Helper: the sizing behavior of the post-hard-reject tail of
`evaluate_risk`, split on the sign of the per-share risk. -/
lemma evaluateRiskMain_spec (intentId : String) (rationale : List String)
    (match_ : SetupMatch) (currentPrice : ℚ) (account : AccountState)
    (context : ContextSnapshot) (config : VPAConfig) (atrValue : ℚ) :
    (|currentPrice - (compute_stop match_ currentPrice config atrValue).1| ≤ 0 →
      (evaluateRiskMain intentId rationale match_ currentPrice account context config
        atrValue).status = TradeIntentStatus.REJECTED ∧
      (evaluateRiskMain intentId rationale match_ currentPrice account context config
        atrValue).rejectReason =
        some "Computed size is zero (stop too close or equity too low)") ∧
    (0 < |currentPrice - (compute_stop match_ currentPrice config atrValue).1| →
      (evaluateRiskMain intentId rationale match_ currentPrice account context config
        atrValue).status = TradeIntentStatus.READY ∧
      (evaluateRiskMain intentId rationale match_ currentPrice account context config
        atrValue).riskPlan.size =
        max 1 (Int.floor (account.equity * effectiveRiskPct context config /
          |currentPrice - (compute_stop match_ currentPrice config atrValue).1|))) := by
  unfold evaluateRiskMain compute_size effectiveRiskPct
  constructor
  · intro h
    split_ifs <;> simp_all [rejectIntent] <;> omega
  · intro h
    split_ifs <;> simp_all <;> omega

/-- C7. Risk-engine sizing: for every SetupMatch that passes the hard
rejects, with risk_per_share = |current_price - stop| the engine produces
a REJECTED intent with an explanatory reason whenever
risk_per_share <= 0, and otherwise a READY intent with
size = max(1, floor(equity * risk_pct / risk_per_share)), where risk_pct
is the effective (possibly countertrend-reduced) risk percentage. -/
theorem c7_sizing (match_ : SetupMatch) (currentPrice : ℚ) (account : AccountState)
    (context : ContextSnapshot) (config : VPAConfig) (atrValue : ℚ)
    (h1 : account.openPositionCount < config.risk.maxConcurrentPositions)
    (h2 : match config.risk.dailyLossLimitPct with
          | some p => -(account.equity * p) < account.dailyRealizedPnl
          | none => True) :
    (|currentPrice - (compute_stop match_ currentPrice config atrValue).1| ≤ 0 →
      (evaluate_risk match_ currentPrice account context config atrValue).status =
        TradeIntentStatus.REJECTED ∧
      (evaluate_risk match_ currentPrice account context config atrValue).rejectReason =
        some "Computed size is zero (stop too close or equity too low)") ∧
    (0 < |currentPrice - (compute_stop match_ currentPrice config atrValue).1| →
      (evaluate_risk match_ currentPrice account context config atrValue).status =
        TradeIntentStatus.READY ∧
      (evaluate_risk match_ currentPrice account context config atrValue).riskPlan.size =
        max 1 (Int.floor (account.equity * effectiveRiskPct context config /
          |currentPrice - (compute_stop match_ currentPrice config atrValue).1|))) := by
  have hmain := evaluateRiskMain_spec
    ("TI-" ++ match_.setupId ++ "-bar" ++ toString match_.matchedAtBar)
    (match_.signals.map (fun sig => sig.id)) match_ currentPrice account context
    config atrValue
  unfold evaluate_risk
  rw [if_neg (by omega)]
  cases hcfg : config.risk.dailyLossLimitPct with
  | none => simpa [hcfg] using hmain
  | some p =>
    rw [hcfg] at h2
    simpa [hcfg, if_neg (by linarith : ¬account.dailyRealizedPnl ≤ -(account.equity * p))]
      using hmain

/-- Witness for C7: at price 100 with bar-based stop 98, the hard rejects
pass, risk_per_share = 2 > 0, and the engine returns READY with
size = max(1, floor(equity x risk_pct / 2)) = 250. -/
theorem c7_witness :
    (evaluate_risk matchLongW 100 acctW ctxIntradayW cfgDefault 0).status =
      TradeIntentStatus.READY ∧
    (evaluate_risk matchLongW 100 acctW ctxIntradayW cfgDefault 0).riskPlan.size =
      max 1 (Int.floor (acctW.equity * effectiveRiskPct ctxIntradayW cfgDefault /
        |100 - (compute_stop matchLongW 100 cfgDefault 0).1|)) ∧
    (evaluate_risk matchLongW 100 acctW ctxIntradayW cfgDefault 0).riskPlan.size = 250 := by
  have h := (c7_sizing matchLongW 100 acctW ctxIntradayW cfgDefault 0
    (by with_unfolding_all decide)
    (by rw [show cfgDefault.risk.dailyLossLimitPct = some (1/50) from by
          with_unfolding_all rfl]
        with_unfolding_all decide)).2
    (by with_unfolding_all decide)
  exact ⟨h.1, h.2, by with_unfolding_all decide⟩

/-- C4 counterexample: with ATR stops enabled, price 100, ATR 80 and
multiplier 1.5, the stop lands at 100 - 120 = -20 < 0, yet the intent is
READY - refuting `stop > 0` as stated (the other two conjuncts hold). -/
theorem c4_counterexample :
    (evaluate_risk matchLongW 100 acctW ctxIntradayW cfgAtrOn 80).status =
      TradeIntentStatus.READY ∧
    (evaluate_risk matchLongW 100 acctW ctxIntradayW cfgAtrOn 80).riskPlan.stop = -20 ∧
    ¬((evaluate_risk matchLongW 100 acctW ctxIntradayW cfgAtrOn 80).riskPlan.stop > 0) := by
  refine ⟨?_, ?_, ?_⟩ <;> with_unfolding_all decide

/-- Helper: when the per-share risk is positive, the computed size is at
least 1 whatever the risk percentage. -/
lemma compute_size_pos (equity riskPct entryPrice stopPrice : ℚ)
    (h : 0 < |entryPrice - stopPrice|) :
    1 ≤ compute_size equity riskPct entryPrice stopPrice := by
  unfold compute_size
  rw [if_neg (by linarith)]
  exact le_max_left _ _

/-- Helper for C4: the post-hard-reject tail only returns READY when the
per-share risk is positive, and then its size is at least 1. -/
lemma evaluateRiskMain_ready_inv (intentId : String) (rationale : List String)
    (match_ : SetupMatch) (currentPrice : ℚ) (account : AccountState)
    (context : ContextSnapshot) (config : VPAConfig) (atrValue : ℚ)
    (hready : (evaluateRiskMain intentId rationale match_ currentPrice account context
      config atrValue).status = TradeIntentStatus.READY) :
    0 < |currentPrice - (evaluateRiskMain intentId rationale match_ currentPrice account
      context config atrValue).riskPlan.stop| ∧
    1 ≤ (evaluateRiskMain intentId rationale match_ currentPrice account context config
      atrValue).riskPlan.size := by
  by_cases hrps : |currentPrice - (compute_stop match_ currentPrice config atrValue).1| ≤ 0
  · exact absurd hready (by
      rw [(evaluateRiskMain_spec intentId rationale match_ currentPrice account context
        config atrValue).1 hrps |>.1]
      simp)
  · replace hrps := not_le.mp hrps
    have hsz1 := compute_size_pos account.equity
      (config.risk.riskPctPerTrade * config.risk.countertrendMultiplier) currentPrice
      (compute_stop match_ currentPrice config atrValue).1 hrps
    have hsz2 := compute_size_pos account.equity config.risk.riskPctPerTrade currentPrice
      (compute_stop match_ currentPrice config atrValue).1 hrps
    have hstop : (evaluateRiskMain intentId rationale match_ currentPrice account context
        config atrValue).riskPlan.stop = (compute_stop match_ currentPrice config atrValue).1 := by
      unfold evaluateRiskMain
      dsimp only
      split_ifs <;> first | rfl | (dsimp only at * ; omega)
    have hspec := (evaluateRiskMain_spec intentId rationale match_ currentPrice account
      context config atrValue).2 hrps
    rw [hstop, hspec.2]
    exact ⟨hrps, le_max_left 1 _⟩

/-- C4 (amended). Stop invariant as the code guarantees it: every READY
TradeIntent from the risk engine satisfies |current_price - stop| > 0 and
size >= 1, for every SetupMatch, price, account, snapshot, config and ATR
input. The claim's `stop > 0` conjunct does not hold in general (see the
counterexample: an ATR distance at least the price yields a READY intent
with a non-positive stop). -/
theorem c4_stop_invariant (match_ : SetupMatch) (currentPrice : ℚ)
    (account : AccountState) (context : ContextSnapshot) (config : VPAConfig)
    (atrValue : ℚ)
    (hready : (evaluate_risk match_ currentPrice account context config atrValue).status =
      TradeIntentStatus.READY) :
    0 < |currentPrice - (evaluate_risk match_ currentPrice account context config
      atrValue).riskPlan.stop| ∧
    1 ≤ (evaluate_risk match_ currentPrice account context config atrValue).riskPlan.size := by
  unfold evaluate_risk at hready ⊢
  split_ifs at hready ⊢ with hmax
  · exact absurd hready (by simp [rejectIntent])
  · cases hcfg : config.risk.dailyLossLimitPct with
    | none =>
      rw [hcfg] at hready
      dsimp only at hready ⊢
      exact evaluateRiskMain_ready_inv _ _ match_ currentPrice account context config
        atrValue hready
    | some p =>
      rw [hcfg] at hready
      dsimp only at hready ⊢
      by_cases hpnl : account.dailyRealizedPnl ≤ -(account.equity * p)
      · rw [if_pos hpnl] at hready
        exact absurd hready (by simp [rejectIntent])
      · rw [if_neg hpnl] at hready ⊢
        exact evaluateRiskMain_ready_inv _ _ match_ currentPrice account context config
          atrValue hready

/-- Witness for C4: the READY intent of the c7 scenario (stop 98 at price
100) has positive per-share risk and size at least 1. -/
theorem c4_witness :
    0 < |100 - (evaluate_risk matchLongW 100 acctW ctxIntradayW cfgDefault 0).riskPlan.stop| ∧
    1 ≤ (evaluate_risk matchLongW 100 acctW ctxIntradayW cfgDefault 0).riskPlan.size :=
  c4_stop_invariant matchLongW 100 acctW ctxIntradayW cfgDefault 0
    (by with_unfolding_all decide)

/-- Helper: expiring never increases the per-setup CANDIDATE count. -/
lemma candCount_expire_le (barIndex : Int) (cs : List SetupCandidate) (sid : String) :
    candCount (expireCandidates barIndex cs) sid ≤ candCount cs sid := by
  unfold candCount expireCandidates
  refine le_trans ((List.filter_sublist _).countP_le _) ?_
  rw [List.countP_map]
  refine List.countP_mono_left (fun c _ h => ?_)
  by_cases hc : c.state = SetupState.CANDIDATE ∧ barIndex > c.expiresAtBar
  · simp only [Function.comp, if_pos hc] at h
    simp at h
  · simpa [Function.comp, if_neg hc] using h

/-- Helper: invalidation never increases the per-setup CANDIDATE count. -/
lemma candCount_invalidate_le (signals : List SignalEvent) (cs : List SetupCandidate)
    (sid : String) :
    candCount (invalidateCandidates signals cs) sid ≤ candCount cs sid := by
  unfold candCount invalidateCandidates
  refine le_trans ((List.filter_sublist _).countP_le _) ?_
  rw [List.countP_map]
  refine List.countP_mono_left (fun c _ h => ?_)
  simp only [Function.comp] at h
  split_ifs at h <;> simp_all

/-- Helper: completion never increases the per-setup CANDIDATE count
(a completed candidate leaves the CANDIDATE state for READY). -/
lemma candCount_complete_le (signals : List SignalEvent) (barIndex : Int)
    (cs : List SetupCandidate) (sid : String) :
    candCount (checkCompletions signals barIndex cs).1 sid ≤ candCount cs sid := by
  unfold candCount checkCompletions
  dsimp only
  rw [List.map_map, List.countP_map]
  refine List.countP_mono_left (fun c _ h => ?_)
  simp only [Function.comp] at h
  unfold completeOne at h
  split_ifs at h with hc
  · simpa using h
  · rcases hdef : lookupSetupDef c.setupId with _ | defn <;> rw [hdef] at h <;>
      dsimp only at h
    · simpa using h
    · rcases hfind : signals.find? (fun sig => decide (sig.id ∈ defn.completers))
        with _ | sig <;> rw [hfind] at h <;> dsimp only at h
      · simpa using h
      · simp at h

/-- Helper: opening for one setup definition preserves the at-most-one
CANDIDATE bound: a new candidate is appended only when no CANDIDATE with
that setup id is tracked. -/
lemma candCount_openForDef_le_one (barIndex windowX : Int) (sig : SignalEvent)
    (cs : List SetupCandidate) (d : SetupDef)
    (h : ∀ sid, candCount cs sid ≤ 1) (sid : String) :
    candCount (openForDef barIndex windowX sig cs d) sid ≤ 1 := by
  unfold openForDef
  split_ifs with htrig htrack
  · exact h sid
  · by_cases hsid : d.setupId = sid
    · have hzero : candCount cs sid = 0 := by
        unfold candCount
        rw [List.countP_eq_zero]
        intro c hc hcd
        rw [decide_eq_true_eq] at hcd
        exact htrack (List.any_eq_true.mpr
          ⟨c, hc, decide_eq_true_eq.mpr ⟨hcd.1.trans hsid.symm, hcd.2⟩⟩)
      unfold candCount at hzero ⊢
      rw [List.countP_append, hzero]
      simp [hsid]
    · unfold candCount at h ⊢
      rw [List.countP_append]
      have : List.countP
          (fun c => decide (c.setupId = sid ∧ c.state = SetupState.CANDIDATE))
          [({ setupId := d.setupId, direction := d.direction,
              state := SetupState.CANDIDATE, signals := [sig],
              startedAtBar := barIndex,
              expiresAtBar := barIndex + windowX } : SetupCandidate)] = 0 := by
        simp [hsid]
      rw [this]
      simpa using h sid
  · exact h sid

/-- Helper: opening candidates for all signals preserves the at-most-one
CANDIDATE bound. -/
lemma candCount_openNew_le_one (barIndex windowX : Int) (signals : List SignalEvent)
    (cs : List SetupCandidate) (h : ∀ sid, candCount cs sid ≤ 1) (sid : String) :
    candCount (openNewCandidates barIndex windowX signals cs) sid ≤ 1 := by
  unfold openNewCandidates
  induction signals generalizing cs with
  | nil => exact h sid
  | cons sig rest ih =>
    rw [List.foldl_cons]
    refine ih _ (fun sid' => ?_)
    have hdefs : ∀ (defs : List SetupDef) (cs' : List SetupCandidate),
        (∀ s', candCount cs' s' ≤ 1) →
        ∀ s', candCount (defs.foldl (openForDef barIndex windowX sig) cs') s' ≤ 1 := by
      intro defs
      induction defs with
      | nil => intro cs' h' s'; exact h' s'
      | cons d ds ihd =>
        intro cs' h' s'
        rw [List.foldl_cons]
        exact ihd _ (fun s'' => candCount_openForDef_le_one barIndex windowX sig cs' d h' s'') s'
    exact hdefs setupDefs cs h sid'

/-- Helper: one `process_signals` invocation preserves the at-most-one
CANDIDATE bound. -/
lemma candCount_processSignals_le_one (st : ComposerState) (signals : List SignalEvent)
    (barIndex : Int) (h : ∀ sid, candCount st.candidates sid ≤ 1) (sid : String) :
    candCount (processSignals st signals barIndex).1.candidates sid ≤ 1 := by
  unfold processSignals
  refine candCount_openNew_le_one barIndex st.windowX signals _ (fun sid' => ?_) sid
  calc candCount (checkCompletions signals barIndex
          (invalidateCandidates signals (expireCandidates barIndex st.candidates))).1 sid'
      ≤ candCount (invalidateCandidates signals
          (expireCandidates barIndex st.candidates)) sid' :=
        candCount_complete_le signals barIndex _ sid'
    _ ≤ candCount (expireCandidates barIndex st.candidates) sid' :=
        candCount_invalidate_le signals _ sid'
    _ ≤ candCount st.candidates sid' := candCount_expire_le barIndex _ sid'
    _ ≤ 1 := h sid'

/-- C9. Composer uniqueness invariant: after every `process_signals`
invocation on a freshly constructed SetupComposer - over any sequence of
per-bar signal lists and bar indices - the candidate state holds at most
one candidate in CANDIDATE state per setup_id. -/
theorem c9_composer_uniqueness (config : VPAConfig)
    (steps : List (List SignalEvent × Int)) (sid : String) :
    candCount (runComposer config steps).candidates sid ≤ 1 := by
  unfold runComposer
  have h : ∀ (acc : ComposerState), (∀ s', candCount acc.candidates s' ≤ 1) →
      ∀ s', candCount (steps.foldl
        (fun st step => (processSignals st step.1 step.2).1) acc).candidates s' ≤ 1 := by
    induction steps with
    | nil => intro acc hacc s'; exact hacc s'
    | cons step rest ih =>
      intro acc hacc s'
      rw [List.foldl_cons]
      exact ih _ (fun s'' => candCount_processSignals_le_one acc step.1 step.2 hacc s'') s'
  exact h (initComposer config) (fun s' => by simp [initComposer, candCount]) sid

/-- Helper for C10: every survivor of the expiry step is one of the
original candidates, in CANDIDATE state. -/
lemma mem_expire (barIndex : Int) (cs : List SetupCandidate) (c : SetupCandidate)
    (h : c ∈ expireCandidates barIndex cs) :
    c ∈ cs ∧ c.state = SetupState.CANDIDATE := by
  unfold expireCandidates at h
  obtain ⟨hmem, hstate⟩ := List.mem_filter.mp h
  rw [decide_eq_true_eq] at hstate
  obtain ⟨a, ha, hfa⟩ := List.mem_map.mp hmem
  refine ⟨?_, hstate⟩
  by_cases hcond : a.state = SetupState.CANDIDATE ∧ barIndex > a.expiresAtBar
  · rw [if_pos hcond] at hfa
    rw [← hfa] at hstate
    simp at hstate
  · rw [if_neg hcond] at hfa
    rwa [← hfa]

/-- Helper for C10: every survivor of the invalidation step is one of the
input candidates, in CANDIDATE state. -/
lemma mem_invalidate (signals : List SignalEvent) (cs : List SetupCandidate)
    (c : SetupCandidate) (h : c ∈ invalidateCandidates signals cs) :
    c ∈ cs ∧ c.state = SetupState.CANDIDATE := by
  unfold invalidateCandidates at h
  obtain ⟨hmem, hstate⟩ := List.mem_filter.mp h
  rw [decide_eq_true_eq] at hstate
  obtain ⟨a, ha, hfa⟩ := List.mem_map.mp hmem
  refine ⟨?_, hstate⟩
  split_ifs at hfa
  · rwa [← hfa]
  · rw [← hfa] at hstate
    simp at hstate
  · rw [← hfa] at hstate
    simp at hstate
  · rwa [← hfa]

/-- C10. Implicit same-bar exclusion: `process_signals` emits matches only
from candidates that existed in the composer state before the invocation
(completions are checked before new candidates are opened). So a trigger
and a matching completer arriving in the same invocation never produce a
SetupMatch: every emitted match traces back to a pre-invocation CANDIDATE
with the same setup id. -/
theorem c10_no_same_bar_completion (st : ComposerState) (signals : List SignalEvent)
    (barIndex : Int) (m : SetupMatch)
    (hm : m ∈ (processSignals st signals barIndex).2) :
    ∃ c ∈ st.candidates, c.state = SetupState.CANDIDATE ∧ c.setupId = m.setupId := by
  unfold processSignals at hm
  dsimp only at hm
  unfold checkCompletions at hm
  dsimp only at hm
  obtain ⟨pair, hpair, hsnd⟩ := List.mem_filterMap.mp hm
  obtain ⟨c, hc, hg⟩ := List.mem_map.mp hpair
  have hCand := mem_expire barIndex st.candidates c
    (mem_invalidate signals _ c hc).1
  have hsid : c.state = SetupState.CANDIDATE → c.setupId = m.setupId := by
    intro _
    unfold completeOne at hg
    split_ifs at hg with hcs
    · rw [← hg] at hsnd
      simp at hsnd
    · rcases hdef : lookupSetupDef c.setupId with _ | defn <;> rw [hdef] at hg <;>
        dsimp only at hg
      · rw [← hg] at hsnd
        simp at hsnd
      · rcases hfind : signals.find? (fun sig => decide (sig.id ∈ defn.completers))
          with _ | sig <;> rw [hfind] at hg <;> dsimp only at hg
        · rw [← hg] at hsnd
          simp at hsnd
        · rw [← hg] at hsnd
          dsimp only at hsnd
          obtain rfl := Option.some_inj.mp hsnd
          rfl
  exact ⟨c, hCand.1, hCand.2, hsid hCand.2⟩

/-- Witness for C10: the match emitted on bar 1 traces back to a CANDIDATE
already present in the bar-0 state. -/
theorem c10_witness :
    ∃ c ∈ composerAfterTrigger.candidates,
      c.state = SetupState.CANDIDATE ∧ c.setupId = matchEntryLong1W.setupId :=
  c10_no_same_bar_completion composerAfterTrigger [sigVal1W] 1 matchEntryLong1W
    (by with_unfolding_all decide)

end Claims

end VPA
